import Mathlib

/-!
Shallow embedding of the two zustand stores of this repository:
`src/stores/auth.store.ts` and `src/stores/counter.store.ts`.

Each store action performs a shallow merge of a patch into the current
state; here every action is embedded as the resulting total state
transformer (a record update), which is exactly the shallow-merge result
for the concrete patch the source passes to `set`.
-/

namespace ZustandTutorial

/-- The `User` record of `auth.store.ts`. -/
structure User where
  id : String
  name : String
  email : String
deriving DecidableEq, Repr

/-- The `LoginInput` record of `auth.store.ts`. -/
structure LoginInput where
  email : String
  password : String
deriving DecidableEq, Repr

/-- The `AuthState` slice of the auth store (`user`, `isAuthenticated`,
`isLoading`, `error`). TypeScript `null` is `Option.none`. -/
structure AuthState where
  user : Option User
  isAuthenticated : Bool
  isLoading : Bool
  error : Option String
deriving DecidableEq, Repr

/-- The initial auth state declared in `create<AuthStore>`. -/
def initialAuthState : AuthState :=
  { user := none, isAuthenticated := false, isLoading := false, error := none }

/-- A value caught by the `catch (e)` block of `login`. The source
distinguishes `e instanceof Error` (carrying a message) from any other
thrown value. -/
inductive Exn where
  | errorWithMessage (msg : String)
  | nonError
deriving DecidableEq, Repr

/-- The fixed reference credential pair accepted by `fakeLoginApi`. -/
def refCredentials : LoginInput :=
  { email := "test@test.com", password := "1234" }

/-- The rejection message of `fakeLoginApi`:
`new Error("이메일 또는 비밀번호가 올바르지 않습니다.")`. -/
def rejectMessage : String := "이메일 또는 비밀번호가 올바르지 않습니다."

/-- The fallback message `login` stores when the caught value is not an
`Error`. -/
def fallbackMessage : String := "로그인 중 알 수 없는 오류가 발생했습니다."

/-- `fakeLoginApi`: resolves with a `User` when the input matches the
hard-coded test account, rejects with an `Error` message otherwise.
The 700 ms latency does not affect the resolved value and is elided. -/
def fakeLoginApi (input : LoginInput) : Except Exn User :=
  if input.email = "test@test.com" ∧ input.password = "1234" then
    .ok { id := "u_1", name := "테스트유저", email := input.email }
  else
    .error (.errorWithMessage rejectMessage)

/-- The message computed in the `catch` block of `login`:
`e instanceof Error ? e.message : <fallback>`. -/
def caughtMessage : Exn → String
  | .errorWithMessage m => m
  | .nonError => fallbackMessage

/-- The first state change of `login`:
`set({ isLoading: true, error: null })`. -/
def loginStart (s : AuthState) : AuthState :=
  { s with isLoading := true, error := none }

/-- The completion step of `login`, applied when the verification result
arrives: the success branch sets `user`, `isAuthenticated`, `isLoading`;
the `catch` branch sets `user`, `isAuthenticated`, `isLoading`, `error`. -/
def loginComplete (r : Except Exn User) (s : AuthState) : AuthState :=
  match r with
  | .ok user =>
      { s with user := some user, isAuthenticated := true, isLoading := false }
  | .error e =>
      { s with user := none, isAuthenticated := false, isLoading := false,
               error := some (caughtMessage e) }

/-- The whole `login` action run to completion with `fakeLoginApi` as the
verification collaborator. -/
def login (input : LoginInput) (s : AuthState) : AuthState :=
  loginComplete (fakeLoginApi input) (loginStart s)

/-- `logout`: `set({ user: null, isAuthenticated: false, error: null })`. -/
def logout (s : AuthState) : AuthState :=
  { s with user := none, isAuthenticated := false, error := none }

/-- `setUser`: `set({ user, isAuthenticated: Boolean(user) })`. -/
def setUser (user : Option User) (s : AuthState) : AuthState :=
  { s with user := user, isAuthenticated := user.isSome }

/-- `clearError`: `set({ error: null })`. -/
def clearError (s : AuthState) : AuthState :=
  { s with error := none }

/-- One atomic state change of the auth store: `login` contributes two
(its start step and its completion step, with an arbitrary verification
outcome); `logout`, `setUser`, `clearError` contribute one each. -/
inductive AuthOp where
  | loginStartOp
  | loginCompleteOp (r : Except Exn User)
  | logoutOp
  | setUserOp (u : Option User)
  | clearErrorOp
deriving Repr

/-- Apply one auth-store operation. -/
def applyAuthOp (s : AuthState) : AuthOp → AuthState
  | .loginStartOp => loginStart s
  | .loginCompleteOp r => loginComplete r s
  | .logoutOp => logout s
  | .setUserOp u => setUser u s
  | .clearErrorOp => clearError s

/-- Run a sequence of auth-store operations from the initial state. -/
def runAuthOps (ops : List AuthOp) : AuthState :=
  ops.foldl applyAuthOp initialAuthState

/-- The auth invariant: `isAuthenticated` is true iff `user` is present. -/
def authInvariant (s : AuthState) : Prop :=
  s.isAuthenticated = s.user.isSome

/-- The `CounterState` slice of `counter.store.ts`. -/
structure CounterState where
  count : Int
deriving DecidableEq, Repr

/-- The initial counter state declared in `create<CounterStore>`. -/
def initialCounterState : CounterState := { count := 0 }

/-- `increase`: `set((state) => ({ count: state.count + 1 }))`. -/
def increase (s : CounterState) : CounterState := { count := s.count + 1 }

/-- `decrease`: `set((state) => ({ count: state.count - 1 }))`. -/
def decrease (s : CounterState) : CounterState := { count := s.count - 1 }

/-- `increaseBy`: `set({ count: get().count + by })`. -/
def increaseBy (n : Int) (s : CounterState) : CounterState :=
  { count := s.count + n }

/-- `reset`: `set({ count: 0 })`. -/
def reset (_ : CounterState) : CounterState := { count := 0 }

/-- `canDecrease`: `get().count > 0`. -/
def canDecrease (s : CounterState) : Bool := s.count > 0

lemma applyAuthOp_preserves_invariant (s : AuthState) (op : AuthOp)
    (h : authInvariant s) : authInvariant (applyAuthOp s op) := by
  cases op with
  | loginStartOp => simpa [applyAuthOp, loginStart, authInvariant] using h
  | loginCompleteOp r =>
      cases r <;> simp [applyAuthOp, loginComplete, authInvariant]
  | logoutOp => simp [applyAuthOp, logout, authInvariant]
  | setUserOp u => simp [applyAuthOp, setUser, authInvariant]
  | clearErrorOp => simpa [applyAuthOp, clearError, authInvariant] using h

lemma foldl_preserves_invariant (ops : List AuthOp) (s : AuthState)
    (h : authInvariant s) : authInvariant (ops.foldl applyAuthOp s) := by
  induction ops generalizing s with
  | nil => simpa using h
  | cons op rest ih =>
      exact ih (applyAuthOp s op) (applyAuthOp_preserves_invariant s op h)

/-- C1: at every state reachable from the initial auth state by any
sequence of `login` start steps, `login` completion steps, `logout`,
`setUser` and `clearError`, `isAuthenticated` is true iff `user` is
present. -/
theorem auth_invariant_reachable (ops : List AuthOp) :
    (runAuthOps ops).isAuthenticated = (runAuthOps ops).user.isSome :=
  foldl_preserves_invariant ops initialAuthState rfl

/-- C2: from any starting state, `login` with the reference credentials
(email "test@test.com", password "1234"), once verification resolves,
leaves `isAuthenticated = true`, `user = {id:"u_1", name:"테스트유저",
email:"test@test.com"}`, `isLoading = false` and no error. -/
theorem login_success_reference (s : AuthState) :
    login refCredentials s =
      { user := some { id := "u_1", name := "테스트유저", email := "test@test.com" },
        isAuthenticated := true, isLoading := false, error := none } := rfl

/-- C3: for any credentials other than the reference pair, `login`, once
verification completes, leaves `isAuthenticated = false`, `user` absent,
`isLoading = false` and `error` set to the non-empty message reported by
`fakeLoginApi`; and when a failure carries no message, the completion step
stores the generic fallback message instead. -/
theorem login_failure_nonreference (input : LoginInput) (s : AuthState)
    (h : input ≠ refCredentials) :
    (∃ msg : String,
        login input s =
          { user := none, isAuthenticated := false, isLoading := false,
            error := some msg } ∧
        msg ≠ "" ∧
        fakeLoginApi input = .error (.errorWithMessage msg)) ∧
    (∀ s2 : AuthState,
        (loginComplete (.error .nonError) s2).error = some fallbackMessage) := by
  have hne : ¬(input.email = "test@test.com" ∧ input.password = "1234") := by
    intro hc
    apply h
    cases input
    simp only [refCredentials]
    simp_all
  refine ⟨⟨rejectMessage, ?_, ?_, ?_⟩, fun s2 => rfl⟩
  · simp [login, fakeLoginApi, hne, loginStart, loginComplete, caughtMessage]
  · simp [rejectMessage]
  · simp [fakeLoginApi, hne]

/-- Witness for C3 at the concrete wrong credentials `{email:"x@x.com",
password:"wrong"}` from the initial state. -/
theorem login_failure_nonreference_witness :
    ({ email := "x@x.com", password := "wrong" } : LoginInput) ≠ refCredentials ∧
    ((∃ msg : String,
        login { email := "x@x.com", password := "wrong" } initialAuthState =
          { user := none, isAuthenticated := false, isLoading := false,
            error := some msg } ∧
        msg ≠ "" ∧
        fakeLoginApi { email := "x@x.com", password := "wrong" } =
          .error (.errorWithMessage msg)) ∧
    (∀ s2 : AuthState,
        (loginComplete (.error .nonError) s2).error = some fallbackMessage)) :=
  ⟨by decide,
   login_failure_nonreference { email := "x@x.com", password := "wrong" }
     initialAuthState (by decide)⟩

/-- C4: `fakeLoginApi` succeeds exactly on the reference credential pair,
returning the fixed `User` record, and on every other input fails with the
same stable, non-empty message. -/
theorem fakeLoginApi_contract (input : LoginInput) :
    fakeLoginApi input =
      (if input = refCredentials then
        .ok { id := "u_1", name := "테스트유저", email := input.email }
      else
        .error (.errorWithMessage rejectMessage)) ∧
    ((∃ u : User, fakeLoginApi input = .ok u) ↔ input = refCredentials) ∧
    rejectMessage ≠ "" := by
  have hiff : (input.email = "test@test.com" ∧ input.password = "1234") ↔
      input = refCredentials := by
    cases input
    simp only [refCredentials]
    constructor
    · rintro ⟨h1, h2⟩; simp_all
    · intro h; simp_all
  refine ⟨?_, ?_, by simp [rejectMessage]⟩
  · by_cases hc : input = refCredentials
    · simp [fakeLoginApi, hiff, hc, refCredentials]
    · simp [fakeLoginApi, hiff, hc]
  · constructor
    · rintro ⟨u, hu⟩
      by_cases hc : input.email = "test@test.com" ∧ input.password = "1234"
      · exact hiff.mp hc
      · simp [fakeLoginApi, hc] at hu
    · intro hc
      refine ⟨{ id := "u_1", name := "테스트유저", email := input.email }, ?_⟩
      simp [fakeLoginApi, hiff, hc, refCredentials]

/-- C5: for every starting state, the first state change of `login` sets
`isLoading = true` and clears `error`, leaving `user` and
`isAuthenticated` unchanged; hence at the moment the verification attempt
starts, `isLoading` and a present `error` are never both true.  The first
conjunct records that `loginStart` is indeed `login`'s first step. -/
theorem login_start_effect (input : LoginInput) (s : AuthState) :
    login input s = loginComplete (fakeLoginApi input) (loginStart s) ∧
    (loginStart s).isLoading = true ∧
    (loginStart s).error = none ∧
    (loginStart s).user = s.user ∧
    (loginStart s).isAuthenticated = s.isAuthenticated ∧
    ¬((loginStart s).isLoading = true ∧ ∃ m : String, (loginStart s).error = some m) := by
  refine ⟨rfl, rfl, rfl, rfl, rfl, ?_⟩
  rintro ⟨-, m, hm⟩
  simp [loginStart] at hm

/-- C6: for every prior state, `logout` leaves `user` absent,
`isAuthenticated = false` and `error` absent, and it is idempotent. -/
theorem logout_effect (s : AuthState) :
    (logout s).user = none ∧
    (logout s).isAuthenticated = false ∧
    (logout s).error = none ∧
    logout (logout s) = logout s :=
  ⟨rfl, rfl, rfl, rfl⟩

/-- C7: for every prior state and every `u : Option User`, `setUser u`
sets `user = u` and `isAuthenticated = u.isSome` while leaving `error` and
`isLoading` unchanged; `setUser u` followed by `setUser none` returns
`user` to absent and `isAuthenticated` to false. -/
theorem setUser_effect (s : AuthState) (u : Option User) :
    (setUser u s).user = u ∧
    (setUser u s).isAuthenticated = u.isSome ∧
    (setUser u s).error = s.error ∧
    (setUser u s).isLoading = s.isLoading ∧
    (setUser none (setUser u s)).user = none ∧
    (setUser none (setUser u s)).isAuthenticated = false :=
  ⟨rfl, rfl, rfl, rfl, rfl, rfl⟩

/-- C8: for every integer `n` and every starting count `c`,
`increaseBy n` yields `count = c + n`, and `reset` always yields
`count = 0`. -/
theorem counter_increaseBy_reset (n : Int) (s : CounterState) :
    (increaseBy n s).count = s.count + n ∧ (reset s).count = 0 :=
  ⟨rfl, rfl⟩

/-- C9: `canDecrease` is true iff `count > 0` (so it is false after
`reset`), and `decrease` unconditionally yields `count - 1`; in
particular, from `count = 0` (where `canDecrease` is false) `decrease`
produces the negative count `-1`. -/
theorem counter_canDecrease_decrease (s : CounterState) :
    (canDecrease s = true ↔ s.count > 0) ∧
    canDecrease (reset s) = false ∧
    (decrease s).count = s.count - 1 ∧
    canDecrease { count := 0 } = false ∧
    (decrease { count := 0 }).count = -1 := by
  refine ⟨?_, rfl, rfl, rfl, rfl⟩
  simp [canDecrease]

/-- C10: `logout` does not change `isLoading`: for every prior state the
`isLoading` field after `logout` equals the field before; in particular
`logout` during an in-flight login (`isLoading = true`) leaves it true. -/
theorem logout_preserves_isLoading (s : AuthState) :
    (logout s).isLoading = s.isLoading ∧
    (logout { s with isLoading := true }).isLoading = true :=
  ⟨rfl, rfl⟩

end ZustandTutorial
